import Mathlib

/-!
# Plugin objects of the JUCI backend (`src/orange_luaobject.c`)

A shallow embedding of the plugin-object lifecycle: construction
(`orange_luaobject_new`), teardown of the interpreter
(`orange_luaobject_free_state`), module loading with signature extraction
(`orange_luaobject_load`) and call dispatch (`orange_luaobject_call`).

The embedded Lua interpreter, the blob builder and the table/blob marshalling
helpers are libraries outside the file.  The interpreter is represented by an
explicit value stack plus an abstract script heap, and the behaviour of
scripts is supplied by an `Engine`.  The per-object mutex is not represented:
every function below is one critical section.
-/

namespace Orange

/-! ## Lua values and the interpreter state -/

/-- Lua values as seen through the C API.  Tables are plain key/value lists
(no metatables), functions are identified by a number that the `Engine`
interprets, and a number `n` stands for a Lua number whose value is the
integer `n`, of any size (a Lua number is a double and reaches far beyond the
range of `lua_Integer`).  Strings are C strings. -/
inductive LVal where
  | nil
  | boolean (b : Bool)
  | number (n : Int)
  | string (s : String)
  | table (entries : List (LVal × LVal))
  | func (id : Nat)

/-- The type tags of `lua.h` that the file distinguishes. -/
inductive LuaType where
  | LUA_TNIL
  | LUA_TBOOLEAN
  | LUA_TNUMBER
  | LUA_TSTRING
  | LUA_TTABLE
  | LUA_TFUNCTION
  deriving DecidableEq, Repr

/-- Type tag of a value. -/
def LVal.type : LVal → LuaType
  | .nil => .LUA_TNIL
  | .boolean _ => .LUA_TBOOLEAN
  | .number _ => .LUA_TNUMBER
  | .string _ => .LUA_TSTRING
  | .table _ => .LUA_TTABLE
  | .func _ => .LUA_TFUNCTION

/-- What scripts can observe of the interpreter besides their own heap: which
host APIs were published (`orange_lua_publish_*_api`), whether
`luaL_openlibs` ran, the value of `package.path` (absent while the `package`
library is not loaded) and the session bound by `orange_lua_set_session`. -/
structure Globals where
  json_api : Bool
  file_api : Bool
  session_api : Bool
  core_api : Bool
  openlibs : Bool
  package_path : Option String
  session : Option Nat
  deriving DecidableEq, Repr

/-- One interpreter instance: globals, the script heap, the C API value stack
(top of the stack first) and the list of protected calls made so far, each
with the function and the arguments it received. -/
structure lua_State (σ : Type) where
  globals : Globals
  heap : σ
  stack : List LVal
  invoked : List (Nat × List LVal)

/-! ## Blobs -/

/-- Fields of a blob: scalars and nested containers. -/
inductive blob_field where
  | string (s : String)
  | int (n : Int)
  | table (fields : List blob_field)
  | array (fields : List blob_field)

/-- Modelled from the spec: the blob builder is outside the file; it is "an
append-only, nested, self-describing builder".  `closed` holds the finished
top-level fields in order, `opened` the containers that are still open,
innermost first, each with its kind (`true` for a table, `false` for an array)
and the fields put into it so far. -/
structure blob where
  closed : List blob_field
  opened : List (Bool × List blob_field)

/-- Modelled from the spec: `blob_init(&b, 0, 0)`, the empty builder. -/
def blob_init : blob := ⟨[], []⟩

/-- Modelled from the spec: appending one field puts it into the innermost
open container, or at top level when none is open. -/
def blob_put (b : blob) (f : blob_field) : blob :=
  match b.opened with
  | [] => { b with closed := b.closed ++ [f] }
  | (k, fs) :: rest => { b with opened := (k, fs ++ [f]) :: rest }

/-- Modelled from the spec: `blob_put_string`. -/
def blob_put_string (b : blob) (s : String) : blob := blob_put b (.string s)

/-- Modelled from the spec: `blob_put_int`. -/
def blob_put_int (b : blob) (n : Int) : blob := blob_put b (.int n)

/-- Modelled from the spec: `blob_open_table` opens a nested table and returns
its offset, here the nesting depth at which it was opened. -/
def blob_open_table (b : blob) : blob × Nat :=
  ({ b with opened := (true, []) :: b.opened }, b.opened.length)

/-- Modelled from the spec: `blob_open_array`. -/
def blob_open_array (b : blob) : blob × Nat :=
  ({ b with opened := (false, []) :: b.opened }, b.opened.length)

/-- Modelled from the spec: closing the innermost container appends it, as one
field, to the enclosing container. -/
def blob_close (b : blob) : blob :=
  match b.opened with
  | [] => b
  | (true, fs) :: rest => blob_put { b with opened := rest } (.table fs)
  | (false, fs) :: rest => blob_put { b with opened := rest } (.array fs)

/-- Modelled from the spec: `blob_close_table`. -/
def blob_close_table (b : blob) (_offset : Nat) : blob := blob_close b

/-- Modelled from the spec: `blob_close_array`. -/
def blob_close_array (b : blob) (_offset : Nat) : blob := blob_close b

/-! ## The engine: what the file does not decide itself -/

/-- Behaviour of the parts the file treats as black boxes.

* `init`: the script heap of a state returned by `luaL_newstate`;
* `loadfile`: compiling a file gives an error message or a chunk (a function);
* `run`: running function `f` on arguments in a protected call gives a result
  value or an error value, and a new heap;
* `str2int`, `num2str`: the string/number coercions of `lua_tointeger` and
  `lua_tostring`;
* `integer_bits`: the width of `lua_Integer` (`ptrdiff_t` in `luaconf.h`);
* `num2int`: what the conversion of `lua_tointeger` produces for a number
  outside the range of `lua_Integer`, where C leaves it to the platform;
* `default_path`: `package.path` right after `luaL_openlibs`;
* `blob_to_table`: the table `orange_lua_blob_to_table` pushes;
* `table_to_blob`: the fields `orange_lua_table_to_blob` appends for the value
  on top of the stack. -/
structure Engine (σ : Type) where
  init : σ
  loadfile : String → Except String Nat
  run : Globals → σ → Nat → List LVal → Except LVal LVal × σ
  str2int : String → Int
  num2str : Int → String
  integer_bits : Nat
  num2int : Int → Int
  default_path : String
  blob_to_table : blob_field → LVal
  table_to_blob : LVal → List blob_field

variable {σ : Type}

/-! ## The C API calls the file uses -/

/-- Value at index `-1`.  On an empty stack that index addresses the function
slot of the base frame, which holds nil. -/
def lua_top (L : lua_State σ) : LVal := L.stack.headD .nil

/-- Models `lua_type(L, -1)`. -/
def lua_type (L : lua_State σ) : LuaType := (lua_top L).type

/-- Models `lua_isfunction(L, -1)`. -/
def lua_isfunction (L : lua_State σ) : Bool :=
  match lua_top L with
  | .func _ => true
  | _ => false

/-- Models `lua_pop(L, n)`. -/
def lua_pop (L : lua_State σ) (n : Nat) : lua_State σ := { L with stack := L.stack.drop n }

/-- Pushes one value (`lua_pushnil`, `lua_pushstring`, `lua_newtable`, ...). -/
def lua_push (L : lua_State σ) (v : LVal) : lua_State σ := { L with stack := v :: L.stack }

/-- Reduction into the range of a signed integer of `bits` bits. -/
def lua_Integer_wrap (bits : Nat) (x : Int) : Int :=
  (x + 2 ^ (bits - 1)) % 2 ^ bits - 2 ^ (bits - 1)

/-- Models `lua_number2integer`: a number within the range of `lua_Integer` converts to
itself; outside that range the result is whatever the platform gives, which is
again a `lua_Integer`. -/
def lua_number2integer (E : Engine σ) (n : Int) : Int :=
  if -(2 : Int) ^ (E.integer_bits - 1) ≤ n ∧ n < (2 : Int) ^ (E.integer_bits - 1) then n
  else lua_Integer_wrap E.integer_bits (E.num2int n)

/-- Models `lua_tointeger(L, -1)`: numbers are converted to `lua_Integer`, strings go
through the interpreter's string-to-number coercion, everything else gives 0. -/
def lua_tointeger (E : Engine σ) (L : lua_State σ) : Int :=
  match lua_top L with
  | .number n => lua_number2integer E n
  | .string s => E.str2int s
  | _ => 0

/-- Models `lua_tostring(L, -1)`: a string is returned as it is, a number is
converted to a string in place, and any other value gives `NULL`. -/
def lua_tostring (E : Engine σ) (L : lua_State σ) : Option String × lua_State σ :=
  match L.stack with
  | .string s :: _ => (some s, L)
  | .number n :: rest => (some (E.num2str n), { L with stack := .string (E.num2str n) :: rest })
  | _ => (none, L)

/-- Raw read of a string-keyed field from a table's entries; nil when absent. -/
def table_get : List (LVal × LVal) → String → LVal
  | [], _ => .nil
  | (.string s, v) :: rest, k => if s = k then v else table_get rest k
  | _ :: rest, k => table_get rest k

/-- Models `lua_getfield(L, -1, k)` for a table on top of the stack: pushes the field's
value.  The file only calls it after checking that the top is a table; on
any other value nil is pushed here. -/
def lua_getfield (L : lua_State σ) (k : String) : lua_State σ :=
  match lua_top L with
  | .table entries => lua_push L (table_get entries k)
  | _ => lua_push L .nil

/-- Models `luaL_loadfile(L, file)`: pushes the compiled chunk and returns 0, or
pushes the error message and returns a non-zero status. -/
def luaL_loadfile (E : Engine σ) (L : lua_State σ) (file : String) : Int × lua_State σ :=
  match E.loadfile file with
  | .ok chunk => (0, lua_push L (.func chunk))
  | .error msg => (6, lua_push L (.string msg))

/-- Models `lua_pcall(L, nargs, 1, 0)`: pops the arguments and the function below
them, runs the function and pushes its single result (status 0) or the error
value (status 2).  Calling a value that is not a function is a runtime error
of the interpreter.  `none` when the stack is too short to hold a function. -/
def lua_pcall (E : Engine σ) (L : lua_State σ) (nargs : Nat) : Option (Int × lua_State σ) :=
  match L.stack.drop nargs with
  | [] => none
  | .func f :: rest =>
    let args := (L.stack.take nargs).reverse
    match E.run L.globals L.heap f args with
    | (.ok v, h) =>
      some (0, { L with heap := h, stack := v :: rest, invoked := L.invoked ++ [(f, args)] })
    | (.error e, h) =>
      some (2, { L with heap := h, stack := e :: rest, invoked := L.invoked ++ [(f, args)] })
  | _ :: rest => some (2, { L with stack := .string "attempt to call a non-function value" :: rest })

/-- Models `orange_lua_set_session(L, session)`: binds the session handle. -/
def orange_lua_set_session (L : lua_State σ) (session : Option Nat) : lua_State σ :=
  { L with globals := { L.globals with session := session } }

/-! ## The plugin object -/

/-- Models `struct orange_luaobject`: the interpreter (absent after teardown), the
name and the signature blob. -/
structure orange_luaobject (σ : Type) where
  lua : Option (lua_State σ)
  name : String
  signature : blob

/-- The installation directory, `#define JUCI_LUA_LIB_PATH`. -/
def JUCI_LUA_LIB_PATH : String := "/usr/lib/orange/lib/"

/-- Models `_luaobject_create_lua_state`: a new state with the four host APIs
published, and nothing else. -/
def _luaobject_create_lua_state (E : Engine σ) : lua_State σ :=
  { globals :=
      { json_api := true, file_api := true, session_api := true, core_api := true,
        openlibs := false, package_path := none, session := none },
    heap := E.init,
    stack := [],
    invoked := [] }

/-- Models `luaL_openlibs`: the standard library, which defines `package.path`. -/
def luaL_openlibs (E : Engine σ) (L : lua_State σ) : lua_State σ :=
  { L with globals := { L.globals with openlibs := true, package_path := some E.default_path } }

/-- The probing loop of `orange_luaobject_new` (`for(int c = 0; c < 3; c++)`):
`lua_libs` is assigned each candidate in turn, a null candidate is skipped and
the loop stops at the first candidate that `opendir` can open.  The second
argument is the value of `lua_libs` when the remaining candidates are
entered. -/
def lua_libs_loop (opendir : String → Bool) : List (Option String) → Option String → Option String
  | [], lua_libs => lua_libs
  | none :: rest, _ => lua_libs_loop opendir rest none
  | some d :: rest, _ => if opendir d then some d else lua_libs_loop opendir rest (some d)

/-- The directory `orange_luaobject_new` puts into `package.path`: the result of
the probing loop over the environment override, `./lualib/` and
`JUCI_LUA_LIB_PATH`, then `if(!lua_libs) lua_libs = "./"`. -/
def select_lua_libs (getenv : Option String) (opendir : String → Bool) : String :=
  match lua_libs_loop opendir [getenv, some "./lualib/", some JUCI_LUA_LIB_PATH] none with
  | some d => d
  | none => "./"

/-- The longest run of leading characters that fits into `n` bytes. -/
def take_bytes : Nat → List Char → List Char
  | _, [] => []
  | n, c :: cs => if c.utf8Size ≤ n then c :: take_bytes (n - c.utf8Size) cs else []

/-- Models `snprintf(buf, size, ...)` applied to the formatted text: what fits into
`size - 1` bytes. -/
def snprintf (size : Nat) (text : String) : String := String.mk (take_bytes (size - 1) text.data)

/-- Models `orange_luaobject_new(name)`; `getenv` is the value of the environment
variable `JUCI_LUA_LIB_PATH` and `opendir` tells which directories can be
opened. -/
def orange_luaobject_new (E : Engine σ) (getenv : Option String) (opendir : String → Bool)
    (name : String) : orange_luaobject σ :=
  let L := luaL_openlibs E (_luaobject_create_lua_state E)
  -- lua_getglobal(L, "package"); lua_getfield(L, -1, "path")
  let old := L.globals.package_path.getD ""
  let L := lua_push (lua_push L (.table [])) (.string old)
  let lua_libs := select_lua_libs getenv opendir
  let newpath :=
    snprintf 255 (lua_libs ++ "/?.lua;" ++ lua_libs ++ "/orange/?.lua;" ++ old ++ ";?.lua")
  let L := lua_pop L 1
  let L := lua_push L (.string newpath)
  -- lua_setfield(L, -2, "path") pops the value
  let L := lua_pop { L with globals := { L.globals with package_path := some newpath } } 1
  let L := lua_pop L 1
  { lua := some L, name := name, signature := blob_init }

/-- Models `orange_luaobject_free_state`. -/
def orange_luaobject_free_state (self : orange_luaobject σ) : orange_luaobject σ :=
  match self.lua with
  | none => self
  | some _ => { self with lua := none }

/-- The `while(lua_next(self->lua, -2))` loop of `orange_luaobject_load` over the
entries of the module table, in the interpreter's iteration order: the value
is popped, the key is read with `lua_tostring` and put into the signature,
followed by an empty array.  A key that is not a string has no defined
outcome (`lua_tostring` returns `NULL` for it, or rewrites a numeric key in
place, which breaks the traversal): `none`. -/
def signature_loop : List (LVal × LVal) → blob → Option blob
  | [], sig => some sig
  | (.string k, _) :: rest, sig =>
    let sig := blob_put_string sig k
    let (sig, m) := blob_open_array sig
    let sig := blob_close_array sig m
    signature_loop rest sig
  | _ :: _, _ => none

/-- Models `orange_luaobject_load(self, file)`: the return value and the object
afterwards.  `none` stands for an execution without a defined outcome
(`lua_next` on a value that is not a table, or a key that is not a string).
The arguments of the `ERROR` log lines are evaluated. -/
def orange_luaobject_load (E : Engine σ) (self : orange_luaobject σ) (file : String) :
    Option (Int × orange_luaobject σ) :=
  let L := match self.lua with
    | some L => L
    | none => _luaobject_create_lua_state E
  let (status, L) := luaL_loadfile E L file
  if status ≠ 0 then
    let (_, L) := lua_tostring E L
    some (-1, { self with lua := some L })
  else
    match lua_pcall E L 0 with
    | none => none
    | some (status, L) =>
      if status ≠ 0 then
        let (_, L) := lua_tostring E L
        some (-1, { self with lua := some L })
      else
        match lua_top L with
        | .table entries =>
          let L := lua_push L .nil
          let (sig, root) := blob_open_table self.signature
          match signature_loop entries sig with
          | none => none
          | some sig =>
            -- the last lua_next pops the key and pushes nothing
            let L := lua_pop L 1
            let sig := blob_close_table sig root
            some (0, { self with lua := some L, signature := sig })
        | _ => none

/-- Appends a list of fields, one after the other. -/
def blob_put_list (b : blob) (fs : List blob_field) : blob := fs.foldl blob_put b

/-- Models `orange_luaobject_call(self, session, method, in, out)`: the return value,
the object afterwards and the `out` blob afterwards.  `self` and `input` may
be null.  `none` stands for an execution without a defined outcome: the
`sprintf` into `char error_msg[255]` receives a null message or more than the
buffer holds. -/
def orange_luaobject_call (E : Engine σ) (self : Option (orange_luaobject σ))
    (session : Option Nat) (method : String) (input : Option blob_field) (out : blob) :
    Option (Int × Option (orange_luaobject σ) × blob) :=
  match self with
  | none => some (-1, none, out)
  | some self =>
    match self.lua with
    | none => some (-1, some self, out)
    | some L =>
      let L := orange_lua_set_session L session
      if lua_type L ≠ .LUA_TTABLE then
        let out := blob_put_string out "error"
        let (out, t) := blob_open_table out
        let out := blob_put_string out "str"
        let out := blob_put_string out "Lua backend state is broken! This should never happen!"
        let out := blob_put_string out "code"
        let out := blob_put_int out (lua_tointeger E L)
        let out := blob_close_table out t
        some (-1, some { self with lua := some L }, out)
      else
        let L := lua_getfield L method
        if !lua_isfunction L then
          let out := blob_put_string out "error"
          let (out, t) := blob_open_table out
          let out := blob_put_string out "str"
          let out := blob_put_string out "Not a function"
          let out := blob_put_string out "code"
          let out := blob_put_int out (lua_tointeger E L)
          let out := blob_close_table out t
          some (-1, some { self with lua := some L }, out)
        else
          let L := match input with
            | some b => lua_push L (E.blob_to_table b)
            | none => lua_push L (.table [])
          match lua_pcall E L 1 with
          | none => none
          | some (status, L) =>
            if status ≠ 0 then
              let (_, L) := lua_tostring E L
              let out := blob_put_string out "error"
              let (out, t) := blob_open_table out
              let out := blob_put_string out "str"
              match lua_tostring E L with
              | (none, _) => none
              | (some m, L) =>
                let error_msg := "error calling " ++ method ++ ": " ++ m ++ "\n"
                if 255 ≤ error_msg.utf8ByteSize then none
                else
                  let out := blob_put_string out error_msg
                  let out := blob_put_string out "LUA error in backend function"
                  let out := blob_put_string out "code"
                  let out := blob_put_int out (lua_tointeger E L)
                  let out := blob_close_table out t
                  some (-1, some { self with lua := some L }, out)
            else
              let out :=
                if lua_type L = .LUA_TTABLE then
                  let out := blob_put_string out "result"
                  let (out, t) := blob_open_table out
                  let out := blob_put_list out (E.table_to_blob (lua_top L))
                  blob_close_table out t
                else if lua_type L = .LUA_TNUMBER then
                  let out := blob_put_string out "error"
                  let (out, t) := blob_open_table out
                  let out := blob_put_string out "code"
                  let out := blob_put_int out (lua_tointeger E L)
                  blob_close_table out t
                else
                  let out := blob_put_string out "result"
                  let (out, t) := blob_open_table out
                  blob_close_table out t
              let L := lua_pop L 1
              some (0, some { self with lua := some L }, out)

/-! ## A small concrete engine -/

/-- A plugin host used for concrete runs.  `plugin.lua` compiles to chunk 0, which
returns the module with the two fields `foo = f1` and `bar = f2`; `f1` returns the
number 42 and `f2` raises the error `boom`.  `big.lua` compiles to chunk 4, which
returns the module with the one field `big = f3`; `f3` returns the number `2^64`.
Every other file fails to compile and every other function raises `boom`.
`lua_Integer` has 64 bits, and a number outside its range converts to `-2^63`. -/
def demo : Engine Unit where
  init := ()
  loadfile := fun file =>
    if file = "plugin.lua" then .ok 0
    else if file = "big.lua" then .ok 4
    else .error "cannot open file"
  run := fun _ h f _ =>
    match f with
    | 0 => (.ok (.table [(.string "foo", .func 1), (.string "bar", .func 2)]), h)
    | 1 => (.ok (.number 42), h)
    | 3 => (.ok (.number 18446744073709551616), h)
    | 4 => (.ok (.table [(.string "big", .func 3)]), h)
    | _ => (.error (.string "boom"), h)
  str2int := fun _ => 0
  num2str := fun _ => ""
  integer_bits := 64
  num2int := fun _ => -9223372036854775808
  default_path := "./?.lua"
  blob_to_table := fun _ => .table []
  table_to_blob := fun _ => []

/-- A freshly constructed object on the concrete engine; no directory exists. -/
def demo_new : orange_luaobject Unit := orange_luaobject_new demo none (fun _ => false) "demo"

/-- The module table of `plugin.lua`. -/
def demo_module : LVal := .table [(.string "foo", .func 1), (.string "bar", .func 2)]

/-- The interpreter of `demo_new` after `plugin.lua` was loaded into it: the module
table is on the stack and chunk 0 was run. -/
def demo_state : lua_State Unit :=
  { globals :=
      { json_api := true, file_api := true, session_api := true, core_api := true,
        openlibs := true,
        package_path :=
          some "/usr/lib/orange/lib//?.lua;/usr/lib/orange/lib//orange/?.lua;./?.lua;?.lua",
        session := none },
    heap := (),
    stack := [demo_module],
    invoked := [(0, [])] }

/-- The signature table of `plugin.lua`: `foo` and `bar`, each with an empty array. -/
def demo_table : blob_field := .table [.string "foo", .array [], .string "bar", .array []]

/-- The object `demo_new` after `plugin.lua` was loaded into it. -/
def demo_loaded : orange_luaobject Unit :=
  { lua := some demo_state, name := "demo", signature := ⟨[demo_table], []⟩ }

/-- The entry written when the top of the stack is not a table. -/
def state_broken_entry (code : Int) : List blob_field :=
  [.string "error",
   .table [.string "str", .string "Lua backend state is broken! This should never happen!",
           .string "code", .int code]]

/-! ## Notions used in the statements -/

/-- The interpreter state `orange_luaobject_load` works on: the object's own, or a
newly created one when the object has none. -/
def load_state (E : Engine σ) (self : orange_luaobject σ) : lua_State σ :=
  match self.lua with
  | some L => L
  | none => _luaobject_create_lua_state E

/-- The protected calls an object's interpreter has made; none for a null object
or an absent interpreter. -/
def invocations : Option (orange_luaobject σ) → List (Nat × List LVal)
  | some { lua := some L, .. } => L.invoked
  | _ => []

/-- The fields of the table `foo: [], bar: [], ...` for a list of keys. -/
def signature_fields : List String → List blob_field
  | [] => []
  | k :: ks => .string k :: .array [] :: signature_fields ks

/-- The object or its interpreter is absent. -/
def absent : Option (orange_luaobject σ) → Prop
  | none => True
  | some self => self.lua = none

/-- No load has succeeded on the object: it is null, its interpreter is absent, or
the interpreter's stack is empty as `orange_luaobject_new` leaves it. -/
def unloaded : Option (orange_luaobject σ) → Prop
  | none => True
  | some { lua := none, .. } => True
  | some { lua := some L, .. } => L.stack = []

/-! ## Facts about the builder -/

theorem blob_put_list_opened (c : List blob_field) (k : Bool) (acc : List blob_field)
    (rest : List (Bool × List blob_field)) (fs : List blob_field) :
    blob_put_list ⟨c, (k, acc) :: rest⟩ fs = ⟨c, (k, acc ++ fs) :: rest⟩ := by
  induction fs generalizing acc with
  | nil => simp [blob_put_list]
  | cons f fs ih =>
    have := ih (acc ++ [f])
    simpa [blob_put_list, blob_put] using this

/-- Opening a table, putting fields and closing it appends one table field. -/
theorem blob_table_entry (out : blob) (fs : List blob_field) (t : Nat) :
    blob_close_table (blob_put_list (blob_open_table out).1 fs) t = blob_put out (.table fs) := by
  cases out with
  | mk c o =>
    simp [blob_open_table, blob_put_list_opened, blob_close_table, blob_close]

/-- The error entry written by the failure branches of `orange_luaobject_call`. -/
theorem blob_error_entry (out : blob) (msg : String) (n : Int) :
    blob_close_table
      (blob_put_int (blob_put_string (blob_put_string (blob_put_string
        (blob_open_table (blob_put_string out "error")).1 "str") msg) "code") n)
      (blob_open_table (blob_put_string out "error")).2
      = blob_put (blob_put out (.string "error"))
          (.table [.string "str", .string msg, .string "code", .int n]) := by
  have := blob_table_entry (blob_put_string out "error")
    [.string "str", .string msg, .string "code", .int n]
    (blob_open_table (blob_put_string out "error")).2
  simpa [blob_put_list, blob_put_string, blob_put_int] using this

theorem signature_loop_strings (entries : List (LVal × LVal)) (ks : List String)
    (hkeys : entries.map Prod.fst = ks.map LVal.string)
    (c : List blob_field) (k : Bool) (acc : List blob_field) (rest : List (Bool × List blob_field)) :
    signature_loop entries ⟨c, (k, acc) :: rest⟩
      = some ⟨c, (k, acc ++ signature_fields ks) :: rest⟩ := by
  induction entries generalizing ks acc with
  | nil =>
    cases ks with
    | nil => simp [signature_loop, signature_fields]
    | cons _ _ => simp at hkeys
  | cons e es ih =>
    cases ks with
    | nil => simp at hkeys
    | cons k1 ks =>
      obtain ⟨key, val⟩ := e
      simp only [List.map_cons, List.cons.injEq] at hkeys
      obtain ⟨h1, h2⟩ := hkeys
      subst h1
      have := ih ks h2 (acc ++ [.string k1, .array []])
      simpa [signature_loop, signature_fields, blob_put_string, blob_put, blob_open_array,
        blob_close_array, blob_close] using this

/-! ## Construction -/

/-- The directory chosen by `orange_luaobject_new`, case by case: the first candidate
that can be opened, and the installation directory when none can. -/
theorem select_lua_libs_cases (getenv : Option String) (opendir : String → Bool) :
    select_lua_libs getenv opendir =
      match getenv with
      | some e =>
        if opendir e then e
        else if opendir "./lualib/" then "./lualib/" else JUCI_LUA_LIB_PATH
      | none => if opendir "./lualib/" then "./lualib/" else JUCI_LUA_LIB_PATH := by
  cases getenv with
  | none =>
    by_cases h1 : opendir "./lualib/" = true <;> by_cases h2 : opendir JUCI_LUA_LIB_PATH = true <;>
      simp [select_lua_libs, lua_libs_loop, h1, h2]
  | some e =>
    by_cases h0 : opendir e = true <;> by_cases h1 : opendir "./lualib/" = true <;>
      by_cases h2 : opendir JUCI_LUA_LIB_PATH = true <;>
      simp [select_lua_libs, lua_libs_loop, h0, h1, h2]

/-- A newly constructed object has an interpreter with an empty stack and no protected
call made. -/
theorem new_is_unloaded (E : Engine σ) (getenv : Option String) (opendir : String → Bool)
    (name : String) :
    unloaded (some (orange_luaobject_new E getenv opendir name))
      ∧ invocations (some (orange_luaobject_new E getenv opendir name)) = [] :=
  ⟨rfl, rfl⟩

/-! ## Call dispatch -/

/-- The not-a-function branch, for an object whose interpreter has the module table on
top of the stack: when the field named by the method is absent or is not a function,
`orange_luaobject_call` returns -1, makes no protected call in the interpreter, and
appends to `out` exactly the entry `"error"` with the table `str = "Not a function"`,
`code = <integer>`. -/
theorem call_not_a_function (E : Engine σ) (self : orange_luaobject σ) (L : lua_State σ)
    (session : Option Nat) (method : String) (input : Option blob_field) (out : blob)
    (entries : List (LVal × LVal)) (rest : List LVal)
    (hlua : self.lua = some L) (hstack : L.stack = .table entries :: rest)
    (hnf : (table_get entries method).type ≠ .LUA_TFUNCTION) :
    ∃ self' code, orange_luaobject_call E (some self) session method input out
      = some (-1, some self',
          blob_put (blob_put out (.string "error"))
            (.table [.string "str", .string "Not a function", .string "code", .int code]))
      ∧ invocations (some self') = invocations (some self) := by
  have hput := blob_error_entry out "Not a function"
  obtain ⟨lua, name, sig⟩ := self
  simp only at hlua
  subst hlua
  refine ⟨{ lua := some (lua_getfield (orange_lua_set_session L session) method),
             name := name, signature := sig },
    lua_tointeger E (lua_getfield (orange_lua_set_session L session) method), ?_, ?_⟩
  · cases hv : table_get entries method <;>
      simp_all [orange_luaobject_call, orange_lua_set_session, lua_type, lua_top,
        LVal.type, lua_getfield, lua_push, lua_isfunction]
  · simp [invocations, lua_getfield, lua_push, orange_lua_set_session, lua_top, hstack]

/-- C10. Call on an unloaded object: when the object is null, its interpreter is
absent, or its interpreter's stack is empty, `orange_luaobject_call` returns -1 and
makes no protected call in the interpreter; when the object or its interpreter is
absent, `out` is left as it was. -/
theorem call_unloaded_fails (E : Engine σ) (self : Option (orange_luaobject σ))
    (session : Option Nat) (method : String) (input : Option blob_field) (out : blob)
    (hun : unloaded self) :
    ∃ self' out', orange_luaobject_call E self session method input out = some (-1, self', out')
      ∧ invocations self' = invocations self
      ∧ (absent self → out' = out) := by
  cases self with
  | none => exact ⟨none, out, rfl, rfl, fun _ => rfl⟩
  | some obj =>
    obtain ⟨lua, name, sig⟩ := obj
    cases lua with
    | none => exact ⟨_, out, rfl, rfl, fun _ => rfl⟩
    | some L =>
      have hstack : L.stack = [] := hun
      refine ⟨some ⟨some (orange_lua_set_session L session), name, sig⟩,
        blob_put (blob_put out (.string "error"))
          (.table [.string "str",
            .string "Lua backend state is broken! This should never happen!",
            .string "code", .int 0]), ?_, ?_, ?_⟩
      · rw [← blob_error_entry]
        simp [orange_luaobject_call, orange_lua_set_session, lua_type, lua_top, hstack,
          LVal.type, lua_tointeger]
      · simp [invocations, orange_lua_set_session]
      · intro habs
        simp [absent] at habs

/-! ## Loading -/

/-- A load whose script compiles, runs without error and returns a table with string
keys succeeds and puts one table, listing each key with an empty array, after whatever
the signature builder held before. -/
theorem load_success_signature (E : Engine σ) (self : orange_luaobject σ) (file : String)
    (chunk : Nat) (entries : List (LVal × LVal)) (ks : List String) (h : σ)
    (hcompile : E.loadfile file = .ok chunk)
    (hrun : E.run (load_state E self).globals (load_state E self).heap chunk []
      = (.ok (.table entries), h))
    (hkeys : entries.map Prod.fst = ks.map LVal.string) :
    ∃ self', orange_luaobject_load E self file = some (0, self')
      ∧ self'.signature = blob_put self.signature (.table (signature_fields ks)) := by
  obtain ⟨lua, name, ⟨c, o⟩⟩ := self
  have hloop := signature_loop_strings entries ks hkeys c true [] o
  cases lua with
  | none =>
    simp only [load_state] at hrun
    refine ⟨⟨some ⟨(_luaobject_create_lua_state E).globals, h, [.table entries],
      (_luaobject_create_lua_state E).invoked ++ [(chunk, [])]⟩, name,
      blob_put ⟨c, o⟩ (.table (signature_fields ks))⟩, ?_, rfl⟩
    simp [orange_luaobject_load, luaL_loadfile, hcompile, lua_push, lua_pcall, hrun, lua_top,
      blob_open_table, hloop, lua_pop, blob_close_table, blob_close]
    rfl
  | some L =>
    simp only [load_state] at hrun
    refine ⟨⟨some ⟨L.globals, h, .table entries :: L.stack, L.invoked ++ [(chunk, [])]⟩, name,
      blob_put ⟨c, o⟩ (.table (signature_fields ks))⟩, ?_, rfl⟩
    simp [orange_luaobject_load, luaL_loadfile, hcompile, lua_push, lua_pcall, hrun, lua_top,
      blob_open_table, hloop, lua_pop, blob_close_table, blob_close]

/-- C5. Signature extraction: for an object with an empty signature and a script that
compiles, runs without error and returns a table with string keys `k1 .. kn`,
`orange_luaobject_load` returns 0 and the signature is exactly one table that holds,
for each key in iteration order and for nothing else, the key followed by an empty
array.  The result depends on the keys alone, so the table's values do not influence
it. -/
theorem load_signature_extraction (E : Engine σ) (self : orange_luaobject σ) (file : String)
    (chunk : Nat) (entries : List (LVal × LVal)) (ks : List String) (h : σ)
    (hfresh : self.signature = blob_init)
    (hcompile : E.loadfile file = .ok chunk)
    (hrun : E.run (load_state E self).globals (load_state E self).heap chunk []
      = (.ok (.table entries), h))
    (hkeys : entries.map Prod.fst = ks.map LVal.string) :
    ∃ self', orange_luaobject_load E self file = some (0, self')
      ∧ self'.signature = ⟨[.table (signature_fields ks)], []⟩ := by
  obtain ⟨self', hload, hsig⟩ :=
    load_success_signature E self file chunk entries ks h hcompile hrun hkeys
  refine ⟨self', hload, ?_⟩
  rw [hsig, hfresh]
  rfl

/-- C6, as the code behaves. A further successful load appends: for an object whose
signature holds the finished fields `earlier`, a successful `orange_luaobject_load` of
a module with string keys `k1 .. kn` returns 0 and leaves the signature equal to
`earlier` followed by the one table listing `k1 .. kn`, each with an empty array. -/
theorem reload_appends_signature (E : Engine σ) (self : orange_luaobject σ) (file : String)
    (chunk : Nat) (entries : List (LVal × LVal)) (ks : List String) (h : σ)
    (earlier : List blob_field)
    (hsig0 : self.signature = ⟨earlier, []⟩)
    (hcompile : E.loadfile file = .ok chunk)
    (hrun : E.run (load_state E self).globals (load_state E self).heap chunk []
      = (.ok (.table entries), h))
    (hkeys : entries.map Prod.fst = ks.map LVal.string) :
    ∃ self', orange_luaobject_load E self file = some (0, self')
      ∧ self'.signature = ⟨earlier ++ [.table (signature_fields ks)], []⟩ := by
  obtain ⟨self', hload, hsig⟩ :=
    load_success_signature E self file chunk entries ks h hcompile hrun hkeys
  refine ⟨self', hload, ?_⟩
  rw [hsig, hsig0]
  rfl

/-- C7. Failed load keeps the signature: when the file does not compile, or compiles
and raises an error when run, `orange_luaobject_load` returns -1 and the signature is
what it was before the call. -/
theorem load_failure_keeps_signature (E : Engine σ) (self : orange_luaobject σ) (file : String)
    (hfail : (∃ msg, E.loadfile file = .error msg) ∨
      (∃ chunk e h, E.loadfile file = .ok chunk ∧
        E.run (load_state E self).globals (load_state E self).heap chunk [] = (.error e, h))) :
    ∃ self', orange_luaobject_load E self file = some (-1, self')
      ∧ self'.signature = self.signature := by
  obtain ⟨lua, name, sig⟩ := self
  rcases hfail with ⟨msg, hmsg⟩ | ⟨chunk, e, h, hcompile, hrun⟩
  · cases lua <;>
      simp [orange_luaobject_load, luaL_loadfile, hmsg, lua_push, lua_tostring]
  · cases lua <;> simp only [load_state] at hrun <;>
      simp [orange_luaobject_load, luaL_loadfile, hcompile, lua_push, lua_pcall, hrun]

/-! ## Concrete runs -/

/-- C1. The module table does not stay on top of the stack after a failed call or
load.  `plugin.lua` is loaded into a new object, which leaves the module table on
top and makes a call of `foo` return 0.  A call of the absent method `missing`
returns -1 and leaves nil on top; a call of `bar`, which raises an error, returns -1
and leaves the error message on top; loading a file that does not compile returns -1
and leaves the error message on top.  After each of the three, the call of the
existing function `foo` returns -1 with the entry of the broken-state branch. -/
theorem failed_call_leaves_no_module_table :
    orange_luaobject_load demo demo_new "plugin.lua" = some (0, demo_loaded)
    ∧ demo_loaded.lua.map lua_type = some .LUA_TTABLE
    ∧ (∃ self' out, orange_luaobject_call demo (some demo_loaded) none "foo" none blob_init
        = some (0, self', out))
    ∧ (∃ self1 out1 self2,
        orange_luaobject_call demo (some demo_loaded) none "missing" none blob_init
          = some (-1, some self1, out1)
        ∧ self1.lua.map lua_type = some .LUA_TNIL
        ∧ orange_luaobject_call demo (some self1) none "foo" none blob_init
          = some (-1, self2, ⟨state_broken_entry 0, []⟩))
    ∧ (∃ self1 out1 self2,
        orange_luaobject_call demo (some demo_loaded) none "bar" none blob_init
          = some (-1, some self1, out1)
        ∧ self1.lua.map lua_type = some .LUA_TSTRING
        ∧ orange_luaobject_call demo (some self1) none "foo" none blob_init
          = some (-1, self2, ⟨state_broken_entry 0, []⟩))
    ∧ (∃ self1 self2,
        orange_luaobject_load demo demo_loaded "broken.lua" = some (-1, self1)
        ∧ self1.lua.map lua_type = some .LUA_TSTRING
        ∧ orange_luaobject_call demo (some self1) none "foo" none blob_init
          = some (-1, self2, ⟨state_broken_entry 0, []⟩)) :=
  ⟨rfl, rfl, ⟨_, _, rfl⟩, ⟨_, _, _, rfl, rfl, rfl⟩, ⟨_, _, _, rfl, rfl, rfl⟩,
    ⟨_, _, rfl, rfl, rfl⟩⟩

/-- C3. The not-a-function answer is lost after a failed call.  On the demo object
with `plugin.lua` loaded, the first call of the absent method `missing` returns -1
and leaves nil on top of the stack; the second call of `missing` returns -1 with the
entry of the broken-state branch, which is not the entry
`str = "Not a function"`, `code = <integer>`. -/
theorem second_missing_call_is_state_broken :
    orange_luaobject_load demo demo_new "plugin.lua" = some (0, demo_loaded)
    ∧ (∃ self1 out1 self2,
        orange_luaobject_call demo (some demo_loaded) none "missing" none blob_init
          = some (-1, some self1, out1)
        ∧ self1.lua.map lua_type = some .LUA_TNIL
        ∧ orange_luaobject_call demo (some self1) none "missing" none blob_init
          = some (-1, self2, ⟨state_broken_entry 0, []⟩))
    ∧ ∀ code : Int, (⟨state_broken_entry 0, []⟩ : blob)
        ≠ blob_put (blob_put blob_init (.string "error"))
            (.table [.string "str", .string "Not a function", .string "code", .int code]) := by
  refine ⟨rfl, ⟨_, _, _, rfl, rfl, rfl⟩, ?_⟩
  intro code h
  simp [state_broken_entry, blob_put, blob_init] at h

/-- C6 fails as stated.  Loading `plugin.lua` a second time into the loaded demo
object, with its interpreter kept or torn down by `orange_luaobject_free_state`,
returns 0 and leaves two tables in the signature, the one of the first load and the
one of the second; the signature is not the single table of the last load. -/
theorem reload_keeps_earlier_signature :
    (∃ self', orange_luaobject_load demo demo_loaded "plugin.lua" = some (0, self')
      ∧ self'.signature = ⟨[demo_table, demo_table], []⟩
      ∧ self'.signature ≠ ⟨[demo_table], []⟩)
    ∧ (∃ self', orange_luaobject_load demo (orange_luaobject_free_state demo_loaded) "plugin.lua"
        = some (0, self')
      ∧ self'.signature = ⟨[demo_table, demo_table], []⟩
      ∧ self'.signature ≠ ⟨[demo_table], []⟩) := by
  have hne : (⟨[demo_table, demo_table], []⟩ : blob) ≠ ⟨[demo_table], []⟩ := by
    intro h
    have := congrArg (fun b => b.closed.length) h
    simp at this
  exact ⟨⟨_, rfl, rfl, hne⟩, ⟨_, rfl, rfl, hne⟩⟩

/-- C8. The fallback to the current directory is never taken.  With the environment
override unset, or set to a directory that does not exist, and no directory existing,
the directory chosen is the installation directory `/usr/lib/orange/lib/`, not `./`,
and it is what ends up in `package.path`. -/
theorem select_lua_libs_none_exist :
    select_lua_libs none (fun _ => false) = "/usr/lib/orange/lib/"
    ∧ select_lua_libs (some "/tmp/lualib/") (fun _ => false) = "/usr/lib/orange/lib/"
    ∧ select_lua_libs none (fun _ => false) ≠ "./"
    ∧ (orange_luaobject_new demo none (fun _ => false) "demo").lua.map
        (fun L => L.globals.package_path)
      = some (some
          "/usr/lib/orange/lib//?.lua;/usr/lib/orange/lib//orange/?.lua;./?.lua;?.lua") := by
  refine ⟨rfl, rfl, ?_, rfl⟩
  decide

/-- C9. The interpreter recreated by a load is not set up like the constructed one.
For every engine, `orange_luaobject_new` gives an interpreter with the standard
library opened and `package.path` set, while the state on which
`orange_luaobject_load` works after `orange_luaobject_free_state` is the bare result
of `_luaobject_create_lua_state`: host APIs published, standard library not opened,
`package.path` not set.  On the demo object the load succeeds and leaves that
interpreter in the object. -/
theorem reload_state_lacks_openlibs :
    (∀ (τ : Type) (E : Engine τ) (getenv : Option String) (opendir : String → Bool)
        (name : String),
      (orange_luaobject_new E getenv opendir name).lua.map (fun L => L.globals.openlibs)
        = some true
      ∧ (orange_luaobject_new E getenv opendir name).lua.map
          (fun L => L.globals.package_path.isSome) = some true
      ∧ load_state E (orange_luaobject_free_state (orange_luaobject_new E getenv opendir name))
          = _luaobject_create_lua_state E
      ∧ (_luaobject_create_lua_state E).globals.json_api = true
      ∧ (_luaobject_create_lua_state E).globals.openlibs = false
      ∧ (_luaobject_create_lua_state E).globals.package_path = none)
    ∧ (∃ self', orange_luaobject_load demo (orange_luaobject_free_state demo_new) "plugin.lua"
        = some (0, self')
      ∧ self'.lua.map (fun L => L.globals.openlibs) = some false
      ∧ self'.lua.map (fun L => L.globals.package_path) = some none) :=
  ⟨fun _ _ _ _ _ => ⟨rfl, rfl, rfl, rfl, rfl, rfl⟩, ⟨_, rfl, rfl, rfl⟩⟩

/-! ## The general statements at the demo object -/

/-- The not-a-function branch at the loaded demo object, which has no field `missing`. -/
theorem call_not_a_function_witness :
    (table_get [(.string "foo", .func 1), (.string "bar", .func 2)] "missing").type
      ≠ .LUA_TFUNCTION
    ∧ ∃ self' code, orange_luaobject_call demo (some demo_loaded) (some 7) "missing" none blob_init
      = some (-1, some self',
          blob_put (blob_put blob_init (.string "error"))
            (.table [.string "str", .string "Not a function", .string "code", .int code]))
      ∧ invocations (some self') = invocations (some demo_loaded) :=
  ⟨by decide,
    call_not_a_function demo demo_loaded demo_state (some 7) "missing" none blob_init
      [(.string "foo", .func 1), (.string "bar", .func 2)] [] rfl rfl (by decide)⟩

/-- C5 at the demo object. Loading `plugin.lua` into the new object gives the
signature with `foo` and `bar`. -/
theorem load_signature_extraction_witness :
    demo_new.signature = blob_init
    ∧ ∃ self', orange_luaobject_load demo demo_new "plugin.lua" = some (0, self')
      ∧ self'.signature = ⟨[.table (signature_fields ["foo", "bar"])], []⟩ :=
  ⟨rfl,
    load_signature_extraction demo demo_new "plugin.lua" 0
      [(.string "foo", .func 1), (.string "bar", .func 2)] ["foo", "bar"] () rfl rfl rfl rfl⟩

/-- C6 at the demo object. Loading `plugin.lua` again into the loaded object appends a
second table. -/
theorem reload_appends_signature_witness :
    demo_loaded.signature = ⟨[demo_table], []⟩
    ∧ ∃ self', orange_luaobject_load demo demo_loaded "plugin.lua" = some (0, self')
      ∧ self'.signature = ⟨[demo_table] ++ [.table (signature_fields ["foo", "bar"])], []⟩ :=
  ⟨rfl,
    reload_appends_signature demo demo_loaded "plugin.lua" 0
      [(.string "foo", .func 1), (.string "bar", .func 2)] ["foo", "bar"] () [demo_table]
      rfl rfl rfl rfl⟩

/-- C7 at the demo object. Loading a file that does not compile into the loaded object
keeps its signature. -/
theorem load_failure_keeps_signature_witness :
    demo.loadfile "broken.lua" = .error "cannot open file"
    ∧ ∃ self', orange_luaobject_load demo demo_loaded "broken.lua" = some (-1, self')
      ∧ self'.signature = demo_loaded.signature :=
  ⟨rfl, load_failure_keeps_signature demo demo_loaded "broken.lua" (Or.inl ⟨_, rfl⟩)⟩

/-- C10 at the demo object. A call on the new object, on which nothing was loaded. -/
theorem call_unloaded_fails_witness :
    unloaded (some demo_new)
    ∧ ∃ self' out', orange_luaobject_call demo (some demo_new) (some 7) "foo" none blob_init
        = some (-1, self', out')
      ∧ invocations self' = invocations (some demo_new)
      ∧ (absent (some demo_new) → out' = blob_init) :=
  ⟨rfl, call_unloaded_fails demo (some demo_new) (some 7) "foo" none blob_init rfl⟩

end Orange
